import Mathlib

/-!
Verification of the `asyncui` package (async progress controller of the
kymactl CLI). The Go source consists of the types `StepFactory` and
`AsyncUI` and the functions `Start`, `sendError`, `Stop`,
`renderStartEvent` and `renderStopEvent`.

The embedding is a faithful shallow one:

* The external `deployment` / `components` / `step` contracts
  (`ProcessUpdate`, `InstallationPhase`, `ProcessEvent`, component
  `Status`, `step.Step`) are vendored dependencies, modelled here as
  closed enumerations exactly as the controller consumes them.
* Step handles are modelled by allocation numbers (`Nat`); every call the
  controller makes on the step factory or on a step handle is recorded in
  an observable trace (`StepOp`), and every error value returned by a
  render function and forwarded by `sendError` is recorded in an error
  list, modelling the caller-owned error channel.
* The per-phase map `ongoingSteps` is an association list with lookup on
  the phase; the Go code only ever inserts a key after a failed lookup
  and never deletes, which the list insert mirrors.
* The consumer goroutine of `Start` processes queued events strictly in
  order; `Stop` closes the queue, the goroutine drains it, its deferred
  `cancel` fires and `Stop` unblocks.  Hence the controller state at the
  moment `Stop` returns is the left fold of the event handler over the
  submitted event sequence (`runToStopReturn`).
* Go panics (close of a nil or closed channel) are modelled explicitly in
  the result of `Stop`.
-/

namespace Asyncui

/-- `deployment.InstallationPhase` (external contract): the closed set of
installation phases the controller switches over. -/
inductive InstallationPhase where
  | InstallPreRequisites
  | UninstallPreRequisites
  | InstallComponents
  | UninstallComponents
deriving DecidableEq, Repr

/-- The raw string value of an `InstallationPhase` (it is a string type in
the source), used when formatting error messages with `%s`. -/
def InstallationPhase.raw : InstallationPhase → String
  | .InstallPreRequisites => "InstallPreRequisites"
  | .UninstallPreRequisites => "UninstallPreRequisites"
  | .InstallComponents => "InstallComponents"
  | .UninstallComponents => "UninstallComponents"

/-- `deployment.ProcessEvent` (external contract): `ProcessStart` and
`ProcessRunning` are matched explicitly by the consumer loop; every other
value is a terminal "stop" signal handled by the default branch. -/
inductive ProcessEvent where
  | ProcessStart
  | ProcessRunning
  | ProcessFinished
  | ProcessExecutionFailure
  | ProcessForceQuitFailure
  | ProcessTimeoutFailure
deriving DecidableEq, Repr

/-- The raw string value of a `ProcessEvent` (a string type in the
source), embedded in the phase-failure diagnostic. -/
def ProcessEvent.raw : ProcessEvent → String
  | .ProcessStart => "ProcessStart"
  | .ProcessRunning => "ProcessRunning"
  | .ProcessFinished => "ProcessFinished"
  | .ProcessExecutionFailure => "ProcessExecutionFailure"
  | .ProcessForceQuitFailure => "ProcessForceQuitFailure"
  | .ProcessTimeoutFailure => "ProcessTimeoutFailure"

/-- `components.Status` (external contract): the controller only ever
compares a status against `StatusError`. -/
inductive Status where
  | StatusNotStarted
  | StatusInstalled
  | StatusError
deriving DecidableEq, Repr

/-- `components.KymaComponent` as consumed by the controller: a name and a
status.  An empty name means the event carries no component. -/
structure KymaComponent where
  name : String
  status : Status
deriving DecidableEq, Repr

/-- `deployment.ProcessUpdate`: one event received on the update queue. -/
structure ProcessUpdate where
  Event : ProcessEvent
  Phase : InstallationPhase
  Component : KymaComponent
deriving DecidableEq, Repr

/-- One observable call made by the controller on the step factory or on a
step handle.  Step handles are identified by their allocation number. -/
inductive StepOp where
  | newStep (msg : String) (id : Nat)
  | success (id : Nat)
  | failure (id : Nat)
deriving DecidableEq, Repr

-- Message constants of the source file.

def deployPrerequisitesPhaseMsg : String := "Deploying pre-requisites"

def undeployPrerequisitesPhaseMsg : String := "Undeploying pre-requisites"

def deployComponentsPhaseMsg : String := "Deploying Kyma"

def undeployComponentsPhaseMsg : String := "Undeploying Kyma"

/-- `deployComponentMsg` with the `%s` verb applied to the component
name. -/
def deployComponentMsg (name : String) : String :=
  "Deploying component '" ++ name ++ "'"

/-- The `switch procUpdEvent.Phase` of `renderStartEvent` choosing the
phase step label. -/
def stepMsgOfPhase : InstallationPhase → String
  | .InstallPreRequisites => deployPrerequisitesPhaseMsg
  | .UninstallPreRequisites => undeployPrerequisitesPhaseMsg
  | .InstallComponents => deployComponentsPhaseMsg
  | .UninstallComponents => undeployComponentsPhaseMsg

/-- Error returned by `renderStartEvent` for an already-open phase. -/
def startIllegalMsg (p : InstallationPhase) : String :=
  "Illegal state: start-step for installation phase '" ++ p.raw ++ "' already exists"

/-- Error returned by `renderStopEvent` for a phase with no open step. -/
def stopIllegalMsg (p : InstallationPhase) : String :=
  "Illegal state: step for installation phase '" ++ p.raw ++ "' does not exist"

/-- Error returned for a phase terminal event other than
`ProcessFinished`, embedding the raw event value. -/
def phaseFailMsg (p : InstallationPhase) (e : ProcessEvent) : String :=
  "Deployment phase '" ++ p.raw ++ "' failed: " ++ e.raw

/-- Error returned for a component whose status is `StatusError`. -/
def componentFailMsg (name : String) : String :=
  "Deployment of component '" ++ name ++ "' failed"

/-- Lookup in the `ongoingSteps` map `(map[deployment.InstallationPhase]step.Step)`,
returning the recorded step handle of a phase. -/
def lookupPhase (m : List (InstallationPhase × Nat)) (p : InstallationPhase) : Option Nat :=
  match m with
  | [] => none
  | (q, id) :: rest => if q = p then some id else lookupPhase rest p

/-- The state owned by the consumer goroutine: the `ongoingSteps` map, the
nextStep step allocation number, and the trace of step calls made so far. -/
structure RenderState where
  ongoing : List (InstallationPhase × Nat)
  nextStep : Nat
  trace : List StepOp
deriving DecidableEq, Repr

/-- `AsyncUI.renderStartEvent`: reject a start for an already-open phase,
otherwise create a phase step via the factory and record it. -/
def renderStartEvent (e : ProcessUpdate) (r : RenderState) : RenderState × Option String :=
  match lookupPhase r.ongoing e.Phase with
  | some _ => (r, some (startIllegalMsg e.Phase))
  | none =>
      ({ ongoing := (e.Phase, r.nextStep) :: r.ongoing
         nextStep := r.nextStep + 1
         trace := r.trace ++ [StepOp.newStep (stepMsgOfPhase e.Phase) r.nextStep] }, none)

/-- `AsyncUI.renderStopEvent`: reject when the phase has no open step;
for a component-less event close the phase step (success on
`ProcessFinished`, failure plus error otherwise); for a component-bearing
event create a dedicated step and close it from the component status. -/
def renderStopEvent (e : ProcessUpdate) (r : RenderState) : RenderState × Option String :=
  match lookupPhase r.ongoing e.Phase with
  | none => (r, some (stopIllegalMsg e.Phase))
  | some id =>
      if e.Component.name = "" then
        if e.Event = ProcessEvent.ProcessFinished then
          ({ r with trace := r.trace ++ [StepOp.success id] }, none)
        else
          ({ r with trace := r.trace ++ [StepOp.failure id] }, some (phaseFailMsg e.Phase e.Event))
      else
        let r2 : RenderState :=
          { r with nextStep := r.nextStep + 1
                   trace := r.trace ++ [StepOp.newStep (deployComponentMsg e.Component.name) r.nextStep] }
        if e.Component.status = Status.StatusError then
          ({ r2 with trace := r2.trace ++ [StepOp.failure r.nextStep] }, some (componentFailMsg e.Component.name))
        else
          ({ r2 with trace := r2.trace ++ [StepOp.success r.nextStep] }, none)

/-- The observable state of one consumer-goroutine run: render state, the
errors forwarded to the caller-owned error channel, and the events the
loop has received so far. -/
structure LoopState where
  render : RenderState
  errors : List String
  handled : List ProcessUpdate
deriving DecidableEq, Repr

/-- `AsyncUI.sendError`: forward a non-nil error to the error channel. -/
def sendError (s : LoopState) (err : Option String) : LoopState :=
  match err with
  | none => s
  | some msg => { s with errors := s.errors ++ [msg] }

/-- One iteration of the consumer loop launched by `Start`: dispatch on
the event value; `ProcessRunning` renders only when a component is
present, `ProcessStart` goes to `renderStartEvent`, everything else to
`renderStopEvent`; returned errors go through `sendError`. -/
def handleEvent (s : LoopState) (e : ProcessUpdate) : LoopState :=
  let s1 : LoopState := { s with handled := s.handled ++ [e] }
  match e.Event with
  | ProcessEvent.ProcessRunning =>
      if e.Component.name ≠ "" then
        let re := renderStopEvent e s1.render
        sendError { s1 with render := re.1 } re.2
      else s1
  | ProcessEvent.ProcessStart =>
      let re := renderStartEvent e s1.render
      sendError { s1 with render := re.1 } re.2
  | _ =>
      let re := renderStopEvent e s1.render
      sendError { s1 with render := re.1 } re.2

/-- The state the consumer goroutine starts from:
`ongoingSteps := make(map[...])`, nothing rendered, nothing handled. -/
def initLoopState : LoopState :=
  { render := { ongoing := [], nextStep := 0, trace := [] }, errors := [], handled := [] }

/-- The consumer loop over a queued event sequence, in arrival order. -/
def processEvents (s : LoopState) (es : List ProcessUpdate) : LoopState :=
  es.foldl handleEvent s

/-- The controller state at the moment `Stop()` returns, for a run in
which the given events were submitted to the queue before `Stop()` closed
it: `Stop` closes the queue, the consumer drains every queued event in
order, its deferred `cancel` fires, and only then does
`<-ui.context.Done()` unblock `Stop`. -/
def runToStopReturn (events : List ProcessUpdate) : LoopState :=
  processEvents initLoopState events

/-- The `updates` channel field of `AsyncUI`: nil before `Start`, open
after `Start`, closed by `Stop`. -/
inductive ChanState where
  | nilChan
  | openChan
  | closedChan
deriving DecidableEq, Repr

/-- The lifecycle-relevant fields of the `AsyncUI` struct, plus a count of
consumer goroutines launched by `Start`. -/
structure AsyncUI where
  updates : ChanState
  stopped : Bool
  consumersLaunched : Nat
deriving DecidableEq, Repr

/-- A zero-value `AsyncUI` as a caller allocates it: nil updates channel,
`stopped` false, no consumer goroutine running. -/
def initAsyncUI : AsyncUI :=
  { updates := ChanState.nilChan, stopped := false, consumersLaunched := 0 }

/-- `AsyncUI.Start`: unconditionally allocate a fresh updates channel and
context and launch one consumer goroutine; the only return value is the
channel.  There is no state check and no error result. -/
def AsyncUI.Start (ui : AsyncUI) : AsyncUI :=
  { ui with updates := ChanState.openChan
            consumersLaunched := ui.consumersLaunched + 1 }

/-- Outcome of a `Stop()` call: normal return, or a Go runtime panic. -/
inductive StopResult where
  | returned
  | panicked (msg : String)
deriving DecidableEq, Repr

/-- `AsyncUI.Stop`: under the mutex, return immediately when already
stopped; otherwise `close(ui.updates)` — a runtime panic when the channel
is nil or already closed — mark stopped, and block on the consumer
context. -/
def AsyncUI.Stop (ui : AsyncUI) : AsyncUI × StopResult :=
  if ui.stopped then (ui, StopResult.returned)
  else
    match ui.updates with
    | ChanState.nilChan => (ui, StopResult.panicked "close of nil channel")
    | ChanState.closedChan => (ui, StopResult.panicked "close of closed channel")
    | ChanState.openChan =>
        ({ ui with updates := ChanState.closedChan, stopped := true }, StopResult.returned)

/-- Number of step-factory `NewStep` calls in a trace. -/
def numCreations (t : List StepOp) : Nat :=
  (t.filter fun op => match op with | StepOp.newStep _ _ => true | _ => false).length

-- Concrete events and states used to evaluate the theorems.

/-- The absent component: empty name (the zero value of the struct). -/
def noComp : KymaComponent := { name := "", status := Status.StatusNotStarted }

/-- `ProcessStart` for the `InstallComponents` phase, no component. -/
def startIC : ProcessUpdate :=
  { Event := ProcessEvent.ProcessStart, Phase := InstallationPhase.InstallComponents,
    Component := noComp }

/-- `ProcessFinished` for the `InstallComponents` phase, no component. -/
def finishedIC : ProcessUpdate :=
  { Event := ProcessEvent.ProcessFinished, Phase := InstallationPhase.InstallComponents,
    Component := noComp }

/-- A failing terminal event for the `InstallComponents` phase. -/
def failedIC : ProcessUpdate :=
  { Event := ProcessEvent.ProcessExecutionFailure, Phase := InstallationPhase.InstallComponents,
    Component := noComp }

/-- A `ProcessRunning` heartbeat for the `InstallComponents` phase with no
component attached. -/
def heartbeatIC : ProcessUpdate :=
  { Event := ProcessEvent.ProcessRunning, Phase := InstallationPhase.InstallComponents,
    Component := noComp }

/-- A component-bearing `ProcessRunning` event for component `core` under
the `InstallComponents` phase, with a chosen status. -/
def runningCore (st : Status) : ProcessUpdate :=
  { Event := ProcessEvent.ProcessRunning, Phase := InstallationPhase.InstallComponents,
    Component := { name := "core", status := st } }

/-- The loop state after `startIC` has been handled from the initial
state: the `InstallComponents` phase has the open step `0`. -/
def openICState : LoopState :=
  { render := { ongoing := [(InstallationPhase.InstallComponents, 0)], nextStep := 1,
                trace := [StepOp.newStep deployComponentsPhaseMsg 0] },
    errors := [], handled := [startIC] }

-- Helper lemmas about the embedded functions.

theorem lookupPhase_some_mem (m : List (InstallationPhase × Nat)) (p : InstallationPhase)
    (id : Nat) (h : lookupPhase m p = some id) : (p, id) ∈ m := by
  induction m with
  | nil => simp [lookupPhase] at h
  | cons hd tl ih =>
      obtain ⟨q, j⟩ := hd
      by_cases hq : q = p
      · subst hq
        simp [lookupPhase] at h
        simp [h]
      · simp [lookupPhase, hq] at h
        exact List.mem_cons_of_mem _ (ih h)

theorem lookupPhase_none_not_mem (m : List (InstallationPhase × Nat)) (p : InstallationPhase)
    (h : lookupPhase m p = none) : p ∉ m.map Prod.fst := by
  induction m with
  | nil => simp
  | cons hd tl ih =>
      obtain ⟨q, j⟩ := hd
      by_cases hq : q = p
      · subst hq; simp [lookupPhase] at h
      · simp [lookupPhase, hq] at h
        simpa [Ne.symm hq] using ih h

/-- `renderStopEvent` never touches the `ongoingSteps` map. -/
theorem renderStopEvent_ongoing (e : ProcessUpdate) (r : RenderState) :
    (renderStopEvent e r).1.ongoing = r.ongoing := by
  unfold renderStopEvent
  cases hl : lookupPhase r.ongoing e.Phase with
  | none => simp
  | some id =>
      by_cases hname : e.Component.name = "" <;>
        by_cases hev : e.Event = ProcessEvent.ProcessFinished <;>
          by_cases hst : e.Component.status = Status.StatusError <;>
            simp [hname, hev, hst]

/-- `sendError` never touches the handled list. -/
theorem sendError_handled (s : LoopState) (err : Option String) :
    (sendError s err).handled = s.handled := by
  cases err <;> rfl

/-- Every iteration of the consumer loop appends exactly the received
event to the handled list. -/
theorem handleEvent_handled (s : LoopState) (e : ProcessUpdate) :
    (handleEvent s e).handled = s.handled ++ [e] := by
  obtain ⟨ev, ph, comp⟩ := e
  cases ev <;> simp only [handleEvent, sendError] <;>
    (try split) <;> (try split) <;> rfl

/-- `sendError` never touches the render state. -/
theorem sendError_render (s : LoopState) (err : Option String) :
    (sendError s err).render = s.render := by
  cases err <;> rfl

theorem sendError_none (s : LoopState) : sendError s none = s := rfl

theorem sendError_some (s : LoopState) (msg : String) :
    sendError s (some msg) = { s with errors := s.errors ++ [msg] } := rfl

/-- The consumer loop dispatches every event that is not `ProcessStart`
and not `ProcessRunning` to `renderStopEvent`. -/
theorem handleEvent_terminal (s : LoopState) (e : ProcessUpdate)
    (h1 : e.Event ≠ ProcessEvent.ProcessStart) (h2 : e.Event ≠ ProcessEvent.ProcessRunning) :
    handleEvent s e =
      sendError { s with handled := s.handled ++ [e]
                         render := (renderStopEvent e s.render).1 }
        (renderStopEvent e s.render).2 := by
  obtain ⟨ev, ph, comp⟩ := e
  cases ev <;> simp_all [handleEvent]

/-- The consumer loop dispatches a `ProcessRunning` event carrying a
component to `renderStopEvent`. -/
theorem handleEvent_runningComponent (s : LoopState) (e : ProcessUpdate)
    (h1 : e.Event = ProcessEvent.ProcessRunning) (h2 : e.Component.name ≠ "") :
    handleEvent s e =
      sendError { s with handled := s.handled ++ [e]
                         render := (renderStopEvent e s.render).1 }
        (renderStopEvent e s.render).2 := by
  obtain ⟨ev, ph, comp⟩ := e
  cases ev <;> simp_all [handleEvent]

/-- The consumer loop dispatches a `ProcessStart` event to
`renderStartEvent`. -/
theorem handleEvent_start (s : LoopState) (e : ProcessUpdate)
    (h1 : e.Event = ProcessEvent.ProcessStart) :
    handleEvent s e =
      sendError { s with handled := s.handled ++ [e]
                         render := (renderStartEvent e s.render).1 }
        (renderStartEvent e s.render).2 := by
  obtain ⟨ev, ph, comp⟩ := e
  cases ev <;> simp_all [handleEvent]

/-- `renderStopEvent` on a component-less `ProcessFinished` event for an
open phase: mark the phase step successful, return no error. -/
theorem renderStopEvent_phase_success (e : ProcessUpdate) (r : RenderState) (id : Nat)
    (hopen : lookupPhase r.ongoing e.Phase = some id)
    (hname : e.Component.name = "") (hev : e.Event = ProcessEvent.ProcessFinished) :
    renderStopEvent e r = ({ r with trace := r.trace ++ [StepOp.success id] }, none) := by
  unfold renderStopEvent
  rw [hopen]
  simp [hname, hev]

/-- `renderStopEvent` on a component-less terminal event other than
`ProcessFinished` for an open phase: mark the phase step failed, return
the phase-failure error embedding the raw event value. -/
theorem renderStopEvent_phase_failure (e : ProcessUpdate) (r : RenderState) (id : Nat)
    (hopen : lookupPhase r.ongoing e.Phase = some id)
    (hname : e.Component.name = "") (hev : e.Event ≠ ProcessEvent.ProcessFinished) :
    renderStopEvent e r =
      ({ r with trace := r.trace ++ [StepOp.failure id] },
       some (phaseFailMsg e.Phase e.Event)) := by
  unfold renderStopEvent
  rw [hopen]
  simp [hname, hev]

/-- `renderStopEvent` on a component-bearing event for an open phase with
a non-error status: create one component step and mark it successful. -/
theorem renderStopEvent_component_ok (e : ProcessUpdate) (r : RenderState) (id : Nat)
    (hopen : lookupPhase r.ongoing e.Phase = some id)
    (hname : e.Component.name ≠ "") (hst : e.Component.status ≠ Status.StatusError) :
    renderStopEvent e r =
      ({ r with nextStep := r.nextStep + 1
                trace := r.trace ++ [StepOp.newStep (deployComponentMsg e.Component.name) r.nextStep,
                                     StepOp.success r.nextStep] }, none) := by
  unfold renderStopEvent
  rw [hopen]
  simp [hname, hst]

/-- `renderStopEvent` on a component-bearing event for an open phase with
an error status: create one component step, mark it failed, return the
component-failure error. -/
theorem renderStopEvent_component_error (e : ProcessUpdate) (r : RenderState) (id : Nat)
    (hopen : lookupPhase r.ongoing e.Phase = some id)
    (hname : e.Component.name ≠ "") (hst : e.Component.status = Status.StatusError) :
    renderStopEvent e r =
      ({ r with nextStep := r.nextStep + 1
                trace := r.trace ++ [StepOp.newStep (deployComponentMsg e.Component.name) r.nextStep,
                                     StepOp.failure r.nextStep] },
       some (componentFailMsg e.Component.name)) := by
  unfold renderStopEvent
  rw [hopen]
  simp [hname, hst]

/-- `renderStartEvent` keeps the phase keys of `ongoingSteps` duplicate
free: it only inserts a phase after its lookup failed. -/
theorem renderStartEvent_nodup (e : ProcessUpdate) (r : RenderState)
    (h : (r.ongoing.map Prod.fst).Nodup) :
    ((renderStartEvent e r).1.ongoing.map Prod.fst).Nodup := by
  unfold renderStartEvent
  cases hl : lookupPhase r.ongoing e.Phase with
  | some id => simpa using h
  | none =>
      simp only [List.map_cons, List.nodup_cons]
      exact ⟨lookupPhase_none_not_mem _ _ hl, h⟩

/-- One loop iteration keeps the phase keys of `ongoingSteps` duplicate
free. -/
theorem handleEvent_nodup (s : LoopState) (e : ProcessUpdate)
    (h : (s.render.ongoing.map Prod.fst).Nodup) :
    ((handleEvent s e).render.ongoing.map Prod.fst).Nodup := by
  obtain ⟨ev, ph, comp⟩ := e
  cases ev <;> simp only [handleEvent] <;> (try split) <;>
    simp only [sendError_render] <;>
    first
    | exact renderStartEvent_nodup _ _ h
    | (rw [renderStopEvent_ongoing]; exact h)
    | exact h

/-- The whole consumer loop keeps the phase keys of `ongoingSteps`
duplicate free. -/
theorem processEvents_nodup (es : List ProcessUpdate) (s : LoopState)
    (h : (s.render.ongoing.map Prod.fst).Nodup) :
    ((processEvents s es).render.ongoing.map Prod.fst).Nodup := by
  induction es generalizing s with
  | nil => exact h
  | cons e tl ih => exact ih (handleEvent s e) (handleEvent_nodup s e h)

/-- The consumer loop handles exactly the submitted events, in order. -/
theorem processEvents_handled (es : List ProcessUpdate) (s : LoopState) :
    (processEvents s es).handled = s.handled ++ es := by
  induction es generalizing s with
  | nil => simp [processEvents]
  | cons e tl ih =>
      have h1 : processEvents s (e :: tl) = processEvents (handleEvent s e) tl := rfl
      rw [h1, ih (handleEvent s e), handleEvent_handled]
      simp

/-- Claim C10 (confirmed): a `ProcessRunning` event with an empty
component name (a phase heartbeat) is skipped entirely by the consumer
loop: no step is created, no step operation is performed, nothing is sent
to the error sink, and the per-phase state is unchanged — only the
handled list records the received event. -/
theorem running_heartbeat_skipped (s : LoopState) (e : ProcessUpdate)
    (hev : e.Event = ProcessEvent.ProcessRunning) (hname : e.Component.name = "") :
    handleEvent s e = { s with handled := s.handled ++ [e] } := by
  obtain ⟨ev, ph, comp⟩ := e
  cases ev <;> simp_all [handleEvent]

/-- Witness for C10: the heartbeat `heartbeatIC` received in the initial
state leaves render state and error sink untouched. -/
theorem running_heartbeat_skipped_witness :
    heartbeatIC.Event = ProcessEvent.ProcessRunning ∧
    heartbeatIC.Component.name = "" ∧
    handleEvent initLoopState heartbeatIC =
      { initLoopState with handled := initLoopState.handled ++ [heartbeatIC] } :=
  ⟨rfl, rfl, running_heartbeat_skipped initLoopState heartbeatIC rfl rfl⟩

/-- Claim C5 (confirmed): for all event sequences the per-phase map never
holds two entries for one phase (at most one open step per phase), and a
`ProcessStart` event for a phase that already has an open step produces
exactly one illegal-state error, creates no new step, and leaves the
render state — including the phase's recorded step — unchanged. -/
theorem at_most_one_open_step :
    (∀ es : List ProcessUpdate,
       ((runToStopReturn es).render.ongoing.map Prod.fst).Nodup) ∧
    (∀ (s : LoopState) (e : ProcessUpdate) (id : Nat),
       e.Event = ProcessEvent.ProcessStart →
       lookupPhase s.render.ongoing e.Phase = some id →
       handleEvent s e = { s with handled := s.handled ++ [e]
                                  errors := s.errors ++ [startIllegalMsg e.Phase] }) := by
  constructor
  · intro es
    exact processEvents_nodup es initLoopState (by simp [initLoopState])
  · intro s e id hev hopen
    rw [handleEvent_start s e hev]
    unfold renderStartEvent
    rw [hopen]
    rfl

/-- Witness for C5: a second `startIC` against the state in which the
`InstallComponents` phase already has open step `0`. -/
theorem at_most_one_open_step_witness :
    startIC.Event = ProcessEvent.ProcessStart ∧
    lookupPhase openICState.render.ongoing startIC.Phase = some 0 ∧
    handleEvent openICState startIC =
      { openICState with handled := openICState.handled ++ [startIC]
                         errors := openICState.errors ++ [startIllegalMsg startIC.Phase] } :=
  ⟨rfl, by decide, at_most_one_open_step.2 openICState startIC 0 rfl (by decide)⟩

/-- Claim C6 (confirmed): any event routed to `renderStopEvent` — a
terminal event with component absent, or a component-bearing event — whose
phase has no open step yields exactly one illegal-state error and leaves
the render state untouched: no step created, no step operated on. -/
theorem stop_without_open_phase_rejected (s : LoopState) (e : ProcessUpdate)
    (hroute : (e.Event = ProcessEvent.ProcessRunning ∧ e.Component.name ≠ "") ∨
              (e.Event ≠ ProcessEvent.ProcessStart ∧ e.Event ≠ ProcessEvent.ProcessRunning))
    (hnone : lookupPhase s.render.ongoing e.Phase = none) :
    handleEvent s e = { s with handled := s.handled ++ [e]
                               errors := s.errors ++ [stopIllegalMsg e.Phase] } := by
  have hdisp : handleEvent s e =
      sendError { s with handled := s.handled ++ [e]
                         render := (renderStopEvent e s.render).1 }
        (renderStopEvent e s.render).2 := by
    rcases hroute with ⟨h1, h2⟩ | ⟨h1, h2⟩
    · exact handleEvent_runningComponent s e h1 h2
    · exact handleEvent_terminal s e h1 h2
  rw [hdisp]
  unfold renderStopEvent
  rw [hnone]
  rfl

/-- Witness for C6: a component result for `core` arriving before any
start of its `InstallComponents` phase is rejected with the illegal-state
error and renders nothing. -/
theorem stop_without_open_phase_rejected_witness :
    ((runningCore Status.StatusError).Event = ProcessEvent.ProcessRunning ∧
      (runningCore Status.StatusError).Component.name ≠ "") ∧
    lookupPhase initLoopState.render.ongoing (runningCore Status.StatusError).Phase = none ∧
    handleEvent initLoopState (runningCore Status.StatusError) =
      { initLoopState with
          handled := initLoopState.handled ++ [runningCore Status.StatusError]
          errors := initLoopState.errors ++
            [stopIllegalMsg (runningCore Status.StatusError).Phase] } :=
  ⟨⟨rfl, by decide⟩, rfl,
   stop_without_open_phase_rejected initLoopState (runningCore Status.StatusError)
     (Or.inl ⟨rfl, by decide⟩) rfl⟩

/-- Claim C7 (confirmed): a terminal event for an open phase with
component absent marks the phase's open step successful when the event is
`ProcessFinished` — producing no error — and marks it failed for every
other terminal value, surfacing exactly one phase-failure error that
embeds the raw event value. -/
theorem phase_terminal_rendering (s : LoopState) (e : ProcessUpdate) (id : Nat)
    (hterm : e.Event ≠ ProcessEvent.ProcessStart ∧ e.Event ≠ ProcessEvent.ProcessRunning)
    (hname : e.Component.name = "")
    (hopen : lookupPhase s.render.ongoing e.Phase = some id) :
    (e.Event = ProcessEvent.ProcessFinished →
       handleEvent s e =
         { s with handled := s.handled ++ [e]
                  render := { s.render with
                                trace := s.render.trace ++ [StepOp.success id] } }) ∧
    (e.Event ≠ ProcessEvent.ProcessFinished →
       handleEvent s e =
         { s with handled := s.handled ++ [e]
                  render := { s.render with
                                trace := s.render.trace ++ [StepOp.failure id] }
                  errors := s.errors ++ [phaseFailMsg e.Phase e.Event] }) := by
  obtain ⟨h1, h2⟩ := hterm
  constructor
  · intro hev
    rw [handleEvent_terminal s e h1 h2,
        renderStopEvent_phase_success e s.render id hopen hname hev]
    rfl
  · intro hev
    rw [handleEvent_terminal s e h1 h2,
        renderStopEvent_phase_failure e s.render id hopen hname hev]
    rfl

/-- Witness for C7: the failing terminal `failedIC` against the open
`InstallComponents` phase marks step `0` failed and surfaces the
phase-failure error embedding `ProcessExecutionFailure`. -/
theorem phase_terminal_rendering_witness :
    (failedIC.Event ≠ ProcessEvent.ProcessStart ∧
      failedIC.Event ≠ ProcessEvent.ProcessRunning) ∧
    failedIC.Component.name = "" ∧
    lookupPhase openICState.render.ongoing failedIC.Phase = some 0 ∧
    ((failedIC.Event = ProcessEvent.ProcessFinished →
       handleEvent openICState failedIC =
         { openICState with
             handled := openICState.handled ++ [failedIC]
             render := { openICState.render with
                           trace := openICState.render.trace ++ [StepOp.success 0] } }) ∧
     (failedIC.Event ≠ ProcessEvent.ProcessFinished →
       handleEvent openICState failedIC =
         { openICState with
             handled := openICState.handled ++ [failedIC]
             render := { openICState.render with
                           trace := openICState.render.trace ++ [StepOp.failure 0] }
             errors := openICState.errors ++ [phaseFailMsg failedIC.Phase failedIC.Event] })) :=
  ⟨⟨by decide, by decide⟩, rfl, by decide,
   phase_terminal_rendering openICState failedIC 0 ⟨by decide, by decide⟩ rfl (by decide)⟩

/-- Claim C8 (confirmed): a component-bearing event (`ProcessRunning` or
terminal) for an open phase immediately creates exactly one new step
labelled with the component's name and immediately closes it — successful
with no error when the status is not `StatusError` (in particular for
ok), failed with exactly one error naming the component when the status
is `StatusError`.  The phase's map entry is unchanged, and since the
phase's step number `id` is below the fresh allocation number, the two
appended operations do not touch the phase's open step. -/
theorem component_event_rendering (s : LoopState) (e : ProcessUpdate) (id : Nat)
    (hname : e.Component.name ≠ "")
    (hstart : e.Event ≠ ProcessEvent.ProcessStart)
    (hopen : lookupPhase s.render.ongoing e.Phase = some id)
    (hbound : ∀ pr ∈ s.render.ongoing, pr.2 < s.render.nextStep) :
    id < s.render.nextStep ∧
    (e.Component.status ≠ Status.StatusError →
       handleEvent s e =
         { s with handled := s.handled ++ [e]
                  render := { s.render with
                                nextStep := s.render.nextStep + 1
                                trace := s.render.trace ++
                                  [StepOp.newStep (deployComponentMsg e.Component.name)
                                      s.render.nextStep,
                                   StepOp.success s.render.nextStep] } }) ∧
    (e.Component.status = Status.StatusError →
       handleEvent s e =
         { s with handled := s.handled ++ [e]
                  render := { s.render with
                                nextStep := s.render.nextStep + 1
                                trace := s.render.trace ++
                                  [StepOp.newStep (deployComponentMsg e.Component.name)
                                      s.render.nextStep,
                                   StepOp.failure s.render.nextStep] }
                  errors := s.errors ++ [componentFailMsg e.Component.name] }) := by
  have hdisp : handleEvent s e =
      sendError { s with handled := s.handled ++ [e]
                         render := (renderStopEvent e s.render).1 }
        (renderStopEvent e s.render).2 := by
    by_cases hr : e.Event = ProcessEvent.ProcessRunning
    · exact handleEvent_runningComponent s e hr hname
    · exact handleEvent_terminal s e hstart hr
  refine ⟨hbound (e.Phase, id) (lookupPhase_some_mem _ _ _ hopen), ?_, ?_⟩
  · intro hst
    rw [hdisp, renderStopEvent_component_ok e s.render id hopen hname hst]
    rfl
  · intro hst
    rw [hdisp, renderStopEvent_component_error e s.render id hopen hname hst]
    rfl

/-- Witness for C8: the failing `core` component under the open
`InstallComponents` phase creates step `1` and immediately fails it,
surfacing the component-failure error. -/
theorem component_event_rendering_witness :
    (runningCore Status.StatusError).Component.name ≠ "" ∧
    (runningCore Status.StatusError).Event ≠ ProcessEvent.ProcessStart ∧
    lookupPhase openICState.render.ongoing (runningCore Status.StatusError).Phase = some 0 ∧
    (∀ pr ∈ openICState.render.ongoing, pr.2 < openICState.render.nextStep) ∧
    (0 < openICState.render.nextStep ∧
     ((runningCore Status.StatusError).Component.status ≠ Status.StatusError →
        handleEvent openICState (runningCore Status.StatusError) =
          { openICState with
              handled := openICState.handled ++ [runningCore Status.StatusError]
              render := { openICState.render with
                            nextStep := openICState.render.nextStep + 1
                            trace := openICState.render.trace ++
                              [StepOp.newStep
                                  (deployComponentMsg
                                    (runningCore Status.StatusError).Component.name)
                                  openICState.render.nextStep,
                               StepOp.success openICState.render.nextStep] } }) ∧
     ((runningCore Status.StatusError).Component.status = Status.StatusError →
        handleEvent openICState (runningCore Status.StatusError) =
          { openICState with
              handled := openICState.handled ++ [runningCore Status.StatusError]
              render := { openICState.render with
                            nextStep := openICState.render.nextStep + 1
                            trace := openICState.render.trace ++
                              [StepOp.newStep
                                  (deployComponentMsg
                                    (runningCore Status.StatusError).Component.name)
                                  openICState.render.nextStep,
                               StepOp.failure openICState.render.nextStep] }
              errors := openICState.errors ++
                [componentFailMsg (runningCore Status.StatusError).Component.name] })) :=
  ⟨by decide, by decide, by decide, by decide,
   component_event_rendering openICState (runningCore Status.StatusError) 0
     (by decide) (by decide) (by decide) (by decide)⟩

/-- Claim C9 (confirmed): once a `Stop()` call has returned normally,
every further sequential `Stop()` call returns immediately (the stopped
flag short-circuits before the channel close and the blocking wait),
never panics, and leaves the controller state unchanged. -/
theorem stop_idempotent (ui : AsyncUI)
    (h : (AsyncUI.Stop ui).2 = StopResult.returned) :
    AsyncUI.Stop (AsyncUI.Stop ui).1 = ((AsyncUI.Stop ui).1, StopResult.returned) := by
  cases hst : ui.stopped <;> cases hup : ui.updates <;>
    simp_all [AsyncUI.Stop]

/-- Witness for C9: a started-then-stopped controller; the second `Stop`
returns at once without changing anything. -/
theorem stop_idempotent_witness :
    (AsyncUI.Stop (AsyncUI.Start initAsyncUI)).2 = StopResult.returned ∧
    AsyncUI.Stop (AsyncUI.Stop (AsyncUI.Start initAsyncUI)).1 =
      ((AsyncUI.Stop (AsyncUI.Start initAsyncUI)).1, StopResult.returned) :=
  ⟨by decide, stop_idempotent (AsyncUI.Start initAsyncUI) (by decide)⟩

/-- Counterexample to claim C1: `renderStopEvent` never deletes the
phase's map entry.  After `Start` then `Finished` for `InstallComponents`
the entry is still recorded, so a later `Start` for the same phase is
rejected with an illegal-state error and creates no fresh step — the run
of three events performs exactly one step creation and surfaces one
error, where the claim demands a fresh step and no error. -/
theorem phase_entry_cleared_counterexample :
    lookupPhase (runToStopReturn [startIC, finishedIC]).render.ongoing
        InstallationPhase.InstallComponents = some 0 ∧
    (runToStopReturn [startIC, finishedIC, startIC]).errors =
      [startIllegalMsg InstallationPhase.InstallComponents] ∧
    numCreations (runToStopReturn [startIC, finishedIC, startIC]).render.trace = 1 :=
  ⟨by decide, by decide, by decide⟩

/-- Claim C1 as amended: a terminal event for phase `P` with component
absent, processed while `P` has an open step, marks that step (successful
for `ProcessFinished`, failed otherwise) but does not clear `P`'s entry
from the per-phase state; the entry persists, so a later `ProcessStart`
for `P` does not open a fresh step but is rejected with an illegal-state
error. -/
theorem phase_terminal_marks_but_keeps_entry (s : LoopState) (e : ProcessUpdate) (id : Nat)
    (hterm : e.Event ≠ ProcessEvent.ProcessStart ∧ e.Event ≠ ProcessEvent.ProcessRunning)
    (hname : e.Component.name = "")
    (hopen : lookupPhase s.render.ongoing e.Phase = some id) :
    lookupPhase (handleEvent s e).render.ongoing e.Phase = some id ∧
    (e.Event = ProcessEvent.ProcessFinished →
       (handleEvent s e).render.trace = s.render.trace ++ [StepOp.success id] ∧
       (handleEvent s e).errors = s.errors) ∧
    (e.Event ≠ ProcessEvent.ProcessFinished →
       (handleEvent s e).render.trace = s.render.trace ++ [StepOp.failure id] ∧
       (handleEvent s e).errors = s.errors ++ [phaseFailMsg e.Phase e.Event]) ∧
    (∀ e2 : ProcessUpdate, e2.Event = ProcessEvent.ProcessStart → e2.Phase = e.Phase →
       handleEvent (handleEvent s e) e2 =
         { handleEvent s e with
             handled := (handleEvent s e).handled ++ [e2]
             errors := (handleEvent s e).errors ++ [startIllegalMsg e.Phase] }) := by
  obtain ⟨h1, h2⟩ := hterm
  have hdisp := handleEvent_terminal s e h1 h2
  have hong : (handleEvent s e).render.ongoing = s.render.ongoing := by
    rw [hdisp, sendError_render]
    exact renderStopEvent_ongoing e s.render
  have hkeep : lookupPhase (handleEvent s e).render.ongoing e.Phase = some id := by
    rw [hong]; exact hopen
  refine ⟨hkeep, ?_, ?_, ?_⟩
  · intro hev
    rw [hdisp, renderStopEvent_phase_success e s.render id hopen hname hev]
    exact ⟨rfl, rfl⟩
  · intro hev
    rw [hdisp, renderStopEvent_phase_failure e s.render id hopen hname hev]
    exact ⟨rfl, rfl⟩
  · intro e2 he2 he2p
    rw [handleEvent_start (handleEvent s e) e2 he2]
    unfold renderStartEvent
    rw [he2p, hkeep]
    rfl

/-- Witness for the amended C1: `finishedIC` against the open
`InstallComponents` phase marks step `0` successful, keeps the map entry,
and a following `startIC` is rejected. -/
theorem phase_terminal_marks_but_keeps_entry_witness :
    (finishedIC.Event ≠ ProcessEvent.ProcessStart ∧
      finishedIC.Event ≠ ProcessEvent.ProcessRunning) ∧
    finishedIC.Component.name = "" ∧
    lookupPhase openICState.render.ongoing finishedIC.Phase = some 0 ∧
    (lookupPhase (handleEvent openICState finishedIC).render.ongoing finishedIC.Phase = some 0 ∧
     (finishedIC.Event = ProcessEvent.ProcessFinished →
        (handleEvent openICState finishedIC).render.trace =
          openICState.render.trace ++ [StepOp.success 0] ∧
        (handleEvent openICState finishedIC).errors = openICState.errors) ∧
     (finishedIC.Event ≠ ProcessEvent.ProcessFinished →
        (handleEvent openICState finishedIC).render.trace =
          openICState.render.trace ++ [StepOp.failure 0] ∧
        (handleEvent openICState finishedIC).errors =
          openICState.errors ++ [phaseFailMsg finishedIC.Phase finishedIC.Event]) ∧
     (∀ e2 : ProcessUpdate, e2.Event = ProcessEvent.ProcessStart →
        e2.Phase = finishedIC.Phase →
        handleEvent (handleEvent openICState finishedIC) e2 =
          { handleEvent openICState finishedIC with
              handled := (handleEvent openICState finishedIC).handled ++ [e2]
              errors := (handleEvent openICState finishedIC).errors ++
                [startIllegalMsg finishedIC.Phase] })) :=
  ⟨⟨by decide, by decide⟩, rfl, by decide,
   phase_terminal_marks_but_keeps_entry openICState finishedIC 0
     ⟨by decide, by decide⟩ rfl (by decide)⟩

/-- Counterexample to claim C2: a submitted heartbeat event (`Running`,
empty component name) is consumed but produces zero step-creation calls,
not exactly one per submitted event. -/
theorem every_event_one_creation_counterexample :
    (runToStopReturn [heartbeatIC]).handled = [heartbeatIC] ∧
    numCreations (runToStopReturn [heartbeatIC]).render.trace = 0 :=
  ⟨by decide, by decide⟩

/-- Claim C2 as amended: every event submitted to the update queue before
`Stop()` closes it is received and dispatched by the consumer loop exactly
once, in submission order, before `Stop()` returns — but the number of
step-creation calls an event produces depends on its kind (zero for
heartbeats, phase terminals and rejected events; one for a phase start or
a component result), not exactly one for every event. -/
theorem no_event_loss (es : List ProcessUpdate) :
    (runToStopReturn es).handled = es := by
  have h := processEvents_handled es initLoopState
  simpa [runToStopReturn, initLoopState] using h

/-- Counterexample to claim C3: `Stop()` on a controller that was never
started does not return normally — `close(ui.updates)` on the nil channel
panics. -/
theorem stop_without_start_counterexample :
    (AsyncUI.Stop initAsyncUI).2 ≠ StopResult.returned := by decide

/-- Claim C3 as amended: calling `Stop()` on a controller on which
`Start()` was never called panics with a close-of-nil-channel runtime
error (leaving the state unchanged, so indeed without rendering effect);
`Stop()` returns normally once `Start()` has been called. -/
theorem stop_without_start_panics :
    AsyncUI.Stop initAsyncUI =
      (initAsyncUI, StopResult.panicked "close of nil channel") ∧
    ∀ ui : AsyncUI, (AsyncUI.Stop (AsyncUI.Start ui)).2 = StopResult.returned := by
  refine ⟨by decide, ?_⟩
  intro ui
  cases h : ui.stopped <;> simp [AsyncUI.Start, AsyncUI.Stop, h]

/-- Counterexample to claim C4: a second `Start()` on the same instance
does not fail — `Start` has no error result at all — and it does launch a
second consumer goroutine (two launched after two calls, not one). -/
theorem second_start_fails_counterexample :
    (AsyncUI.Start (AsyncUI.Start initAsyncUI)).consumersLaunched = 2 ∧
    (AsyncUI.Start (AsyncUI.Start initAsyncUI)).consumersLaunched ≠ 1 :=
  ⟨by decide, by decide⟩

/-- Claim C4 as amended: a second `Start()` on the same instance does not
signal any error to the caller (the function returns only the fresh
update channel); it silently replaces the update channel and launches a
second consumer goroutine. -/
theorem second_start_silent (ui : AsyncUI) :
    AsyncUI.Start (AsyncUI.Start ui) =
      { ui with updates := ChanState.openChan
                consumersLaunched := ui.consumersLaunched + 2 } := rfl

end Asyncui
